import Mathlib

/-!
# Shallow embedding of `esp-microsleep`

This file embeds `src/esp_microsleep.c` (functions `esp_microsleep_delay`
and `esp_microsleep_calibrate`) and proves the specification claims about
them.

Modelling choices:
* `uint64_t` values are `Nat`s, with explicit `% 2 ^ 64` wraparound
  (`u64_sub`, `u64_add`) exactly where the C code performs 64-bit
  arithmetic that can wrap.
* The mutable state visible to the two functions is `MicrosleepState`:
  the process-wide global `esp_microsleep_compensation` and the FreeRTOS
  task-local-storage slot `CONFIG_ESP_MICROSLEEP_TLS_INDEX` of every task,
  modelled as a map from task handle to the optionally stored timer handle.
* Calls into esp-idf / FreeRTOS (`esp_timer_create`,
  `esp_timer_start_once`, `ets_delay_us`, `xTaskNotifyWait`) are external
  collaborators.  Their return codes are inputs (`DelayEnv`), and the side
  effects the C code requests from them are recorded in an action trace
  (`DelayAction`), so that theorems can speak about "a timer was created /
  armed", "the task busy-waited" and "the task blocked".
* `esp_timer_get_time()` readings made by `esp_microsleep_calibrate` are
  summarised per round by `elapsed i`, the 64-bit difference between the
  clock value after and before round `i`'s delay call.
-/

/-- `ESP_OK` of esp-idf: the success return code, value 0. -/
def ESP_OK : Nat := 0

/-- `ESP_ERR_INVALID_STATE` of esp-idf (0x103 = 259): in particular the code
`esp_timer_start_once` returns when the timer is already running. -/
def ESP_ERR_INVALID_STATE : Nat := 259

/-- `ESP_ERR_NO_MEM` of esp-idf (0x101 = 257): in particular the code
`esp_timer_create` returns when allocation fails. -/
def ESP_ERR_NO_MEM : Nat := 257

/-- Number of values of the C type `uint64_t`. -/
def UINT64_LIMIT : Nat := 2 ^ 64

/-- Subtraction of two `uint64_t` values (each `< UINT64_LIMIT`), with
the wraparound C's unsigned arithmetic performs on underflow. -/
def u64_sub (a b : Nat) : Nat := (a + UINT64_LIMIT - b) % UINT64_LIMIT

/-- Addition of two `uint64_t` values, with wraparound. -/
def u64_add (a b : Nat) : Nat := (a + b) % UINT64_LIMIT

/-- The externally observable steps `esp_microsleep_delay` can take, in
program order.
* `createTimer h`: `esp_timer_create` succeeded and produced handle `h`
  (a one-shot, ISR-dispatched timer bound to the calling task).
* `busyWait us`: `ets_delay_us(us)` was called (busy-wait, no suspension).
* `armTimer h dur`: `esp_timer_start_once(h, dur)` was invoked.
* `notifyWait`: `xTaskNotifyWait(0, 0, NULL, portMAX_DELAY)` was reached,
  blocking the calling task with no timeout until the ISR notifies it. -/
inductive DelayAction where
  | createTimer (handle : Nat)
  | busyWait (us : Nat)
  | armTimer (handle : Nat) (dur : Nat)
  | notifyWait
  deriving DecidableEq

/-- The mutable state of the module: the process-wide global
`esp_microsleep_compensation` (a `uint64_t`, initially 0) and the contents
of TLS slot `CONFIG_ESP_MICROSLEEP_TLS_INDEX` for every task, as a map
from task handle to the timer handle stored there (`none` = NULL). -/
structure MicrosleepState where
  esp_microsleep_compensation : Nat
  tls : Nat → Option Nat

/-- Outcomes of the external esp-idf calls a single `esp_microsleep_delay`
invocation may make: the return code of `esp_timer_create`, the handle it
writes on success, and the return code of `esp_timer_start_once`. -/
structure DelayEnv where
  createErr : Nat
  createHandle : Nat
  armErr : Nat

/-- Result of one `esp_microsleep_delay` call: the `esp_err_t` return
value, the state after the call, and the trace of external actions. -/
structure DelayResult where
  ret : Nat
  state : MicrosleepState
  actions : List DelayAction

/-- The body of `esp_microsleep_delay` after the TLS lookup / timer
creation (lines 107-128 of `esp_microsleep.c`): the `us == 0` fast path,
the busy-wait path for `us <= esp_microsleep_compensation`, and otherwise
`esp_timer_start_once(timer, us - esp_microsleep_compensation)` followed
by `xTaskNotifyWait`.  `acts` is the trace accumulated so far. -/
def esp_microsleep_delay_rest (env : DelayEnv) (us : Nat) (s : MicrosleepState)
    (timer : Nat) (acts : List DelayAction) : DelayResult :=
  if us = 0 then
    { ret := ESP_OK, state := s, actions := acts }
  else if us ≤ s.esp_microsleep_compensation then
    { ret := ESP_OK, state := s, actions := acts ++ [DelayAction.busyWait us] }
  else if env.armErr ≠ ESP_OK then
    { ret := env.armErr, state := s,
      actions := acts ++
        [DelayAction.armTimer timer (u64_sub us s.esp_microsleep_compensation)] }
  else
    { ret := ESP_OK, state := s,
      actions := acts ++
        [DelayAction.armTimer timer (u64_sub us s.esp_microsleep_compensation),
         DelayAction.notifyWait] }

/-- The effect on TLS of `vTaskSetThreadLocalStoragePointerAndDelCallback`:
store `timer` in the calling task's slot, leaving every other task's slot
(and the compensation global) unchanged. -/
def tlsStore (s : MicrosleepState) (task timer : Nat) : MicrosleepState :=
  { s with tls := fun t => if t = task then some timer else s.tls t }

/-- `esp_microsleep_delay(us)` called by task `task` in state `s`, with the
external call outcomes given by `env` (lines 82-129 of `esp_microsleep.c`).
First the calling task's TLS slot is read; if it is empty a timer is
created and stored there (with the deletion callback registered), and a
creation failure is returned at once.  Only then does the body run. -/
def esp_microsleep_delay (task : Nat) (env : DelayEnv) (us : Nat)
    (s : MicrosleepState) : DelayResult :=
  match s.tls task with
  | some timer => esp_microsleep_delay_rest env us s timer []
  | none =>
    if env.createErr ≠ ESP_OK then
      { ret := env.createErr, state := s, actions := [] }
    else
      esp_microsleep_delay_rest env us (tlsStore s task env.createHandle)
        env.createHandle [DelayAction.createTimer env.createHandle]

/-- `calibration_loops` of `esp_microsleep_calibrate`: 10 rounds. -/
def calibration_loops : Nat := 10

/-- `calibration_usec` of `esp_microsleep_calibrate`: each round requests a
100 microsecond delay. -/
def calibration_usec : Nat := 100

/-- Result of `esp_microsleep_calibrate`: the returned value, the state
after the call, and, for each `esp_microsleep_delay` call it made in
order, the requested duration together with that call's action trace. -/
structure CalibrateResult where
  ret : Nat
  state : MicrosleepState
  calls : List (Nat × List DelayAction)

/-- The calibration loop (lines 72-77 of `esp_microsleep.c`), starting at
round `i` with `n` rounds left and `acc` the `compensation` accumulator.
Each round calls `esp_microsleep_delay(calibration_usec)` and adds
`diff = elapsed − calibration_usec` (64-bit arithmetic) to the
accumulator, where `elapsed i` is the difference of the two
`esp_timer_get_time()` readings around round `i`'s delay call.  Returns
the final state, the accumulator, and the log of delay calls made. -/
def calibLoop (task : Nat) (envs : Nat → DelayEnv) (elapsed : Nat → Nat)
    (n : Nat) : Nat → MicrosleepState → Nat →
      MicrosleepState × Nat × List (Nat × List DelayAction) :=
  Nat.rec (motive := fun _ => Nat → MicrosleepState → Nat →
      MicrosleepState × Nat × List (Nat × List DelayAction))
    (fun _ s acc => (s, acc, []))
    (fun _ ih i s acc =>
      let r := esp_microsleep_delay task (envs i) calibration_usec s
      let diff := u64_sub (elapsed i) calibration_usec
      let tail := ih (i + 1) r.state (u64_add acc diff)
      (tail.1, tail.2.1, (calibration_usec, r.actions) :: tail.2.2))
    n

/-- `esp_microsleep_calibrate()` called by task `task` in state `s` (lines
65-80 of `esp_microsleep.c`): one throwaway `esp_microsleep_delay(0)` call
(external outcomes `env0`), then `calibration_loops` measured rounds
(round `i` uses outcomes `envs i` and measures elapsed time `elapsed i`),
then the global `esp_microsleep_compensation` is overwritten with the
truncating average `compensation / calibration_loops`, which is also
returned. -/
def esp_microsleep_calibrate (task : Nat) (env0 : DelayEnv)
    (envs : Nat → DelayEnv) (elapsed : Nat → Nat) (s : MicrosleepState) :
    CalibrateResult :=
  let warm := esp_microsleep_delay task env0 0 s
  let r := calibLoop task envs elapsed calibration_loops 0 warm.state 0
  let comp := r.2.1 / calibration_loops
  { ret := comp,
    state := { r.1 with esp_microsleep_compensation := comp },
    calls := (0, warm.actions) :: r.2.2 }

/-! ## Helper lemmas about the embedded code paths -/

theorem u64_sub_eq (a b : Nat) (hb : b ≤ a) (ha : a < UINT64_LIMIT) :
    u64_sub a b = a - b := by
  unfold u64_sub
  have h1 : a + UINT64_LIMIT - b = (a - b) + UINT64_LIMIT := by omega
  rw [h1, Nat.add_mod_right, Nat.mod_eq_of_lt (by omega)]

theorem u64_add_eq (a b : Nat) (h : a + b < UINT64_LIMIT) :
    u64_add a b = a + b :=
  Nat.mod_eq_of_lt h

theorem tlsStore_comp (s : MicrosleepState) (task timer : Nat) :
    (tlsStore s task timer).esp_microsleep_compensation
      = s.esp_microsleep_compensation := rfl

theorem tlsStore_self (s : MicrosleepState) (task timer : Nat) :
    (tlsStore s task timer).tls task = some timer := by
  simp [tlsStore]

theorem tlsStore_other (s : MicrosleepState) (task timer t : Nat) (h : t ≠ task) :
    (tlsStore s task timer).tls t = s.tls t := by
  simp [tlsStore, h]

theorem delay_rest_state (env : DelayEnv) (us : Nat) (s : MicrosleepState)
    (timer : Nat) (acts : List DelayAction) :
    (esp_microsleep_delay_rest env us s timer acts).state = s := by
  unfold esp_microsleep_delay_rest
  split_ifs <;> rfl

theorem delay_rest_zero (env : DelayEnv) (s : MicrosleepState)
    (timer : Nat) (acts : List DelayAction) :
    esp_microsleep_delay_rest env 0 s timer acts =
      { ret := ESP_OK, state := s, actions := acts } := rfl

theorem delay_rest_busy (env : DelayEnv) (us : Nat) (s : MicrosleepState)
    (timer : Nat) (acts : List DelayAction) (h0 : us ≠ 0)
    (hc : us ≤ s.esp_microsleep_compensation) :
    esp_microsleep_delay_rest env us s timer acts =
      { ret := ESP_OK, state := s,
        actions := acts ++ [DelayAction.busyWait us] } := by
  unfold esp_microsleep_delay_rest
  rw [if_neg h0, if_pos hc]

theorem delay_rest_arm_fail (env : DelayEnv) (us : Nat) (s : MicrosleepState)
    (timer : Nat) (acts : List DelayAction) (h0 : us ≠ 0)
    (hc : ¬ us ≤ s.esp_microsleep_compensation) (ha : env.armErr ≠ ESP_OK) :
    esp_microsleep_delay_rest env us s timer acts =
      { ret := env.armErr, state := s,
        actions := acts ++
          [DelayAction.armTimer timer (u64_sub us s.esp_microsleep_compensation)] } := by
  unfold esp_microsleep_delay_rest
  rw [if_neg h0, if_neg hc, if_pos ha]

theorem delay_rest_arm_ok (env : DelayEnv) (us : Nat) (s : MicrosleepState)
    (timer : Nat) (acts : List DelayAction) (h0 : us ≠ 0)
    (hc : ¬ us ≤ s.esp_microsleep_compensation) (ha : env.armErr = ESP_OK) :
    esp_microsleep_delay_rest env us s timer acts =
      { ret := ESP_OK, state := s,
        actions := acts ++
          [DelayAction.armTimer timer (u64_sub us s.esp_microsleep_compensation),
           DelayAction.notifyWait] } := by
  unfold esp_microsleep_delay_rest
  rw [if_neg h0, if_neg hc, if_neg (not_not_intro ha)]

theorem delay_rest_actions_mem (env : DelayEnv) (us : Nat) (s : MicrosleepState)
    (timer : Nat) (acts : List DelayAction) (a : DelayAction)
    (h : a ∈ (esp_microsleep_delay_rest env us s timer acts).actions) :
    a ∈ acts ∨ a = DelayAction.busyWait us ∨
      a = DelayAction.armTimer timer (u64_sub us s.esp_microsleep_compensation) ∨
      a = DelayAction.notifyWait := by
  unfold esp_microsleep_delay_rest at h
  split_ifs at h <;> simp_all <;> tauto

theorem delay_rest_acts_subset (env : DelayEnv) (us : Nat) (s : MicrosleepState)
    (timer : Nat) (acts : List DelayAction) (a : DelayAction) (h : a ∈ acts) :
    a ∈ (esp_microsleep_delay_rest env us s timer acts).actions := by
  unfold esp_microsleep_delay_rest
  split_ifs <;> simp_all

theorem delay_cached (task : Nat) (env : DelayEnv) (us : Nat)
    (s : MicrosleepState) (tmr : Nat) (htls : s.tls task = some tmr) :
    esp_microsleep_delay task env us s =
      esp_microsleep_delay_rest env us s tmr [] := by
  unfold esp_microsleep_delay
  rw [htls]

theorem delay_fresh_err (task : Nat) (env : DelayEnv) (us : Nat)
    (s : MicrosleepState) (htls : s.tls task = none)
    (he : env.createErr ≠ ESP_OK) :
    esp_microsleep_delay task env us s =
      { ret := env.createErr, state := s, actions := [] } := by
  unfold esp_microsleep_delay
  rw [htls]
  exact if_pos he

theorem delay_fresh_ok (task : Nat) (env : DelayEnv) (us : Nat)
    (s : MicrosleepState) (htls : s.tls task = none)
    (he : env.createErr = ESP_OK) :
    esp_microsleep_delay task env us s =
      esp_microsleep_delay_rest env us (tlsStore s task env.createHandle)
        env.createHandle [DelayAction.createTimer env.createHandle] := by
  unfold esp_microsleep_delay
  rw [htls]
  exact if_neg (not_not_intro he)

theorem delay_comp_eq (task : Nat) (env : DelayEnv) (us : Nat)
    (s : MicrosleepState) :
    (esp_microsleep_delay task env us s).state.esp_microsleep_compensation
      = s.esp_microsleep_compensation := by
  cases htls : s.tls task with
  | some tmr => rw [delay_cached task env us s tmr htls, delay_rest_state]
  | none =>
    by_cases he : env.createErr = ESP_OK
    · rw [delay_fresh_ok task env us s htls he, delay_rest_state]
      rfl
    · rw [delay_fresh_err task env us s htls he]

theorem delay_cached_state (task : Nat) (env : DelayEnv) (us : Nat)
    (s : MicrosleepState) (tmr : Nat) (htls : s.tls task = some tmr) :
    (esp_microsleep_delay task env us s).state = s := by
  rw [delay_cached task env us s tmr htls, delay_rest_state]

theorem delay_cached_no_create (task : Nat) (env : DelayEnv) (us : Nat)
    (s : MicrosleepState) (tmr : Nat) (htls : s.tls task = some tmr)
    (h : Nat) : DelayAction.createTimer h ∉ (esp_microsleep_delay task env us s).actions := by
  rw [delay_cached task env us s tmr htls]
  intro hmem
  rcases delay_rest_actions_mem env us s tmr [] _ hmem with h1 | h1 | h1 | h1 <;>
    simp_all

/-! ## Claim theorems: single `esp_microsleep_delay` calls -/

/-- C1: for every requested value `us` with `0 < us` and `us` at most the
compensation value read at call time, provided the calling task's timer
handle already exists or is created successfully, `esp_microsleep_delay us`
performs a direct busy-wait (`ets_delay_us`) for exactly `us` microseconds
and returns `ESP_OK`, without arming any timer and without blocking. -/
theorem delay_subthreshold_busy_waits (task : Nat) (env : DelayEnv) (us : Nat)
    (s : MicrosleepState) (h0 : 0 < us)
    (hc : us ≤ s.esp_microsleep_compensation)
    (ht : s.tls task ≠ none ∨ env.createErr = ESP_OK) :
    (esp_microsleep_delay task env us s).ret = ESP_OK ∧
    DelayAction.busyWait us ∈ (esp_microsleep_delay task env us s).actions ∧
    (∀ v, DelayAction.busyWait v ∈ (esp_microsleep_delay task env us s).actions → v = us) ∧
    (∀ t d, DelayAction.armTimer t d ∉ (esp_microsleep_delay task env us s).actions) ∧
    DelayAction.notifyWait ∉ (esp_microsleep_delay task env us s).actions := by
  cases htls : s.tls task with
  | some tmr =>
    rw [delay_cached task env us s tmr htls,
      delay_rest_busy env us s tmr [] (Nat.pos_iff_ne_zero.mp h0) hc]
    simp
  | none =>
    have he : env.createErr = ESP_OK := by
      rcases ht with h | h
      · exact absurd htls h
      · exact h
    rw [delay_fresh_ok task env us s htls he,
      delay_rest_busy env us (tlsStore s task env.createHandle) env.createHandle
        [DelayAction.createTimer env.createHandle] (Nat.pos_iff_ne_zero.mp h0) hc]
    simp

/-- Witness for C1, at the spec's concrete scenario: compensation 15,
`delay(10)` on a task with no cached timer yet, creation succeeding. -/
theorem delay_subthreshold_busy_waits_witness :
    (esp_microsleep_delay 0 ⟨0, 7, 0⟩ 10 ⟨15, fun _ => none⟩).ret = ESP_OK ∧
    DelayAction.busyWait 10 ∈ (esp_microsleep_delay 0 ⟨0, 7, 0⟩ 10 ⟨15, fun _ => none⟩).actions ∧
    (∀ v, DelayAction.busyWait v ∈ (esp_microsleep_delay 0 ⟨0, 7, 0⟩ 10 ⟨15, fun _ => none⟩).actions → v = 10) ∧
    (∀ t d, DelayAction.armTimer t d ∉ (esp_microsleep_delay 0 ⟨0, 7, 0⟩ 10 ⟨15, fun _ => none⟩).actions) ∧
    DelayAction.notifyWait ∉ (esp_microsleep_delay 0 ⟨0, 7, 0⟩ 10 ⟨15, fun _ => none⟩).actions :=
  delay_subthreshold_busy_waits 0 ⟨0, 7, 0⟩ 10 ⟨15, fun _ => none⟩
    (by decide) (by decide) (Or.inr rfl)

/-- C2: for every requested value `us` strictly greater than the
compensation value `c` read at call time, provided the calling task's
timer exists or is created successfully and `esp_timer_start_once`
succeeds, `esp_microsleep_delay us` arms exactly one one-shot timer (the
task's own) for `us − c` microseconds, then blocks on
`xTaskNotifyWait(0, 0, NULL, portMAX_DELAY)`, and returns `ESP_OK`. -/
theorem delay_scheduled_arms_once (task : Nat) (env : DelayEnv) (us : Nat)
    (s : MicrosleepState) (hc : s.esp_microsleep_compensation < us)
    (hu : us < UINT64_LIMIT)
    (ht : s.tls task ≠ none ∨ env.createErr = ESP_OK)
    (ha : env.armErr = ESP_OK) :
    (esp_microsleep_delay task env us s).ret = ESP_OK ∧
    ∃ tmr, (esp_microsleep_delay task env us s).state.tls task = some tmr ∧
      ((esp_microsleep_delay task env us s).actions =
        [DelayAction.armTimer tmr (us - s.esp_microsleep_compensation),
         DelayAction.notifyWait] ∨
       (esp_microsleep_delay task env us s).actions =
        [DelayAction.createTimer tmr,
         DelayAction.armTimer tmr (us - s.esp_microsleep_compensation),
         DelayAction.notifyWait]) := by
  have h0 : us ≠ 0 := by omega
  have hsub := u64_sub_eq us s.esp_microsleep_compensation (Nat.le_of_lt hc) hu
  cases htls : s.tls task with
  | some tmr =>
    rw [delay_cached task env us s tmr htls,
      delay_rest_arm_ok env us s tmr [] h0 (by omega) ha, hsub]
    exact ⟨rfl, tmr, htls, Or.inl rfl⟩
  | none =>
    have he : env.createErr = ESP_OK := by
      rcases ht with h | h
      · exact absurd htls h
      · exact h
    have hc' : ¬ us ≤ (tlsStore s task env.createHandle).esp_microsleep_compensation := by
      rw [tlsStore_comp]; omega
    rw [delay_fresh_ok task env us s htls he,
      delay_rest_arm_ok env us (tlsStore s task env.createHandle) env.createHandle
        [DelayAction.createTimer env.createHandle] h0 hc' ha,
      tlsStore_comp, hsub]
    exact ⟨rfl, env.createHandle, tlsStore_self s task env.createHandle, Or.inr rfl⟩

/-- Witness for C2, at the spec's concrete scenario: compensation 15,
cached timer handle 3, `delay(100)` arms the timer for 85 and blocks. -/
theorem delay_scheduled_arms_once_witness :
    (esp_microsleep_delay 0 ⟨0, 7, 0⟩ 100 ⟨15, fun _ => some 3⟩).ret = ESP_OK ∧
    ∃ tmr, (esp_microsleep_delay 0 ⟨0, 7, 0⟩ 100 ⟨15, fun _ => some 3⟩).state.tls 0 = some tmr ∧
      ((esp_microsleep_delay 0 ⟨0, 7, 0⟩ 100 ⟨15, fun _ => some 3⟩).actions =
        [DelayAction.armTimer tmr 85, DelayAction.notifyWait] ∨
       (esp_microsleep_delay 0 ⟨0, 7, 0⟩ 100 ⟨15, fun _ => some 3⟩).actions =
        [DelayAction.createTimer tmr, DelayAction.armTimer tmr 85,
         DelayAction.notifyWait]) :=
  delay_scheduled_arms_once 0 ⟨0, 7, 0⟩ 100 ⟨15, fun _ => some 3⟩
    (by decide) (by decide) (Or.inl (by decide)) rfl

/-- C3 counterexample: the claim "delay(0) returns success immediately
... with no timer creation ... for every task including one that has
never called delay before" is false on the code.  `esp_microsleep_delay`
performs the TLS lookup and lazy timer creation *before* the `us == 0`
check (lines 87-105 come before line 107), so on a task with an empty TLS
slot `delay(0)` does create a timer; and if that creation fails
(`ESP_ERR_NO_MEM`), `delay(0)` returns the error rather than success. -/
theorem delay_zero_counterexample :
    DelayAction.createTimer 7 ∈
      (esp_microsleep_delay 0 ⟨ESP_OK, 7, ESP_OK⟩ 0 ⟨0, fun _ => none⟩).actions ∧
    (esp_microsleep_delay 0 ⟨ESP_ERR_NO_MEM, 7, ESP_OK⟩ 0
      ⟨0, fun _ => none⟩).ret ≠ ESP_OK := by
  decide

/-- C3 amended: `delay(0)` never busy-waits, never arms a timer and never
suspends; if the calling task's timer already exists it returns `ESP_OK`
immediately with no external action at all; on a task's first call,
however, it first creates and caches the task's timer before returning
`ESP_OK`, and if that creation fails it returns the creation error
instead of success. -/
theorem delay_zero_amended (task : Nat) (env : DelayEnv) (s : MicrosleepState) :
    (∀ t d, DelayAction.armTimer t d ∉ (esp_microsleep_delay task env 0 s).actions) ∧
    (∀ v, DelayAction.busyWait v ∉ (esp_microsleep_delay task env 0 s).actions) ∧
    DelayAction.notifyWait ∉ (esp_microsleep_delay task env 0 s).actions ∧
    (∀ tmr, s.tls task = some tmr →
      (esp_microsleep_delay task env 0 s).ret = ESP_OK ∧
      (esp_microsleep_delay task env 0 s).actions = []) ∧
    (s.tls task = none → env.createErr = ESP_OK →
      (esp_microsleep_delay task env 0 s).ret = ESP_OK ∧
      (esp_microsleep_delay task env 0 s).actions =
        [DelayAction.createTimer env.createHandle] ∧
      (esp_microsleep_delay task env 0 s).state.tls task = some env.createHandle) ∧
    (s.tls task = none → env.createErr ≠ ESP_OK →
      (esp_microsleep_delay task env 0 s).ret = env.createErr) := by
  cases htls : s.tls task with
  | some tmr =>
    rw [delay_cached task env 0 s tmr htls, delay_rest_zero]
    refine ⟨by simp, by simp, by simp, fun _ _ => ⟨rfl, rfl⟩, ?_, ?_⟩
    · intro h; simp [htls] at h
    · intro h; simp [htls] at h
  | none =>
    by_cases he : env.createErr = ESP_OK
    · rw [delay_fresh_ok task env 0 s htls he, delay_rest_zero]
      refine ⟨by simp, by simp, by simp, ?_, ?_, ?_⟩
      · intro tmr h; exact absurd h (by simp)
      · exact fun _ _ => ⟨rfl, rfl, tlsStore_self s task env.createHandle⟩
      · exact fun _ h => absurd he h
    · rw [delay_fresh_err task env 0 s htls he]
      refine ⟨by simp, by simp, by simp, ?_, ?_, fun _ _ => rfl⟩
      · intro tmr h; exact absurd h (by simp)
      · exact fun _ h => absurd h he

/-- Witness for the amended C3, on a fresh task with successful timer
creation: `delay(0)` returns `ESP_OK`, its only action is creating the
task's timer, and the timer ends up cached in the task's TLS slot. -/
theorem delay_zero_amended_witness :
    (esp_microsleep_delay 0 ⟨0, 7, 0⟩ 0 ⟨0, fun _ => none⟩).ret = ESP_OK ∧
    (esp_microsleep_delay 0 ⟨0, 7, 0⟩ 0 ⟨0, fun _ => none⟩).actions =
      [DelayAction.createTimer 7] ∧
    (esp_microsleep_delay 0 ⟨0, 7, 0⟩ 0 ⟨0, fun _ => none⟩).state.tls 0 = some 7 :=
  (delay_zero_amended 0 ⟨0, 7, 0⟩ ⟨0, fun _ => none⟩).2.2.2.2.1 rfl rfl

/-- C6: if creating the per-task timer fails (`esp_timer_create` returns a
code other than `ESP_OK`), `esp_microsleep_delay` returns that creation
error code to the caller, leaves the state unchanged, and performs no
external action at all — in particular no busy-wait fallback, no timer
arming, and no suspension. -/
theorem delay_create_failure_propagates (task : Nat) (env : DelayEnv)
    (us : Nat) (s : MicrosleepState) (htls : s.tls task = none)
    (he : env.createErr ≠ ESP_OK) :
    (esp_microsleep_delay task env us s).ret = env.createErr ∧
    (esp_microsleep_delay task env us s).state = s ∧
    (esp_microsleep_delay task env us s).actions = [] := by
  rw [delay_fresh_err task env us s htls he]
  exact ⟨rfl, rfl, rfl⟩

/-- Witness for C6: `esp_timer_create` fails with `ESP_ERR_NO_MEM` (257)
on a fresh task; `delay(50)` returns 257 and does nothing. -/
theorem delay_create_failure_propagates_witness :
    (esp_microsleep_delay 0 ⟨257, 0, 0⟩ 50 ⟨0, fun _ => none⟩).ret = 257 ∧
    (esp_microsleep_delay 0 ⟨257, 0, 0⟩ 50 ⟨0, fun _ => none⟩).state =
      ⟨0, fun _ => none⟩ ∧
    (esp_microsleep_delay 0 ⟨257, 0, 0⟩ 50 ⟨0, fun _ => none⟩).actions = [] :=
  delay_create_failure_propagates 0 ⟨257, 0, 0⟩ 50 ⟨0, fun _ => none⟩
    rfl (by decide)

/-- C7: if `esp_timer_start_once` fails — including the
`ESP_ERR_INVALID_STATE` case of arming a timer that is already running —
`esp_microsleep_delay` returns the arm operation's error code verbatim,
does not block the task (no `xTaskNotifyWait`), and leaves the state
unchanged. -/
theorem delay_arm_failure_propagates (task : Nat) (env : DelayEnv) (us : Nat)
    (s : MicrosleepState) (tmr : Nat) (htls : s.tls task = some tmr)
    (hc : s.esp_microsleep_compensation < us) (ha : env.armErr ≠ ESP_OK) :
    (esp_microsleep_delay task env us s).ret = env.armErr ∧
    DelayAction.notifyWait ∉ (esp_microsleep_delay task env us s).actions ∧
    (esp_microsleep_delay task env us s).state = s := by
  rw [delay_cached task env us s tmr htls,
    delay_rest_arm_fail env us s tmr [] (by omega) (by omega) ha]
  exact ⟨rfl, by simp, rfl⟩

/-- Witness for C7: arming the cached timer fails with
`ESP_ERR_INVALID_STATE` (259, timer already running); `delay(100)`
returns 259 and never reaches the notification wait. -/
theorem delay_arm_failure_propagates_witness :
    (esp_microsleep_delay 0 ⟨0, 0, 259⟩ 100 ⟨15, fun _ => some 3⟩).ret = 259 ∧
    DelayAction.notifyWait ∉
      (esp_microsleep_delay 0 ⟨0, 0, 259⟩ 100 ⟨15, fun _ => some 3⟩).actions ∧
    (esp_microsleep_delay 0 ⟨0, 0, 259⟩ 100 ⟨15, fun _ => some 3⟩).state =
      ⟨15, fun _ => some 3⟩ :=
  delay_arm_failure_propagates 0 ⟨0, 0, 259⟩ 100 ⟨15, fun _ => some 3⟩ 3
    rfl (by decide) (by decide)

/-- C8: the per-task timer is created lazily on a task's first call and
stored in that task's TLS slot; a call by a task that already has a timer
keeps the cached handle and creates no new timer; a call never touches any
other task's slot (so no timer is ever shared with or reassigned to
another task — each slot holds at most one handle by construction); and
whenever a timer is armed it is exactly the handle cached in the calling
task's own slot. -/
theorem delay_timer_cache_invariant (task : Nat) (env : DelayEnv) (us : Nat)
    (s : MicrosleepState) :
    (s.tls task = none → env.createErr = ESP_OK →
      (esp_microsleep_delay task env us s).state.tls task = some env.createHandle ∧
      DelayAction.createTimer env.createHandle ∈
        (esp_microsleep_delay task env us s).actions) ∧
    (∀ tmr, s.tls task = some tmr →
      (esp_microsleep_delay task env us s).state.tls task = some tmr ∧
      ∀ h, DelayAction.createTimer h ∉ (esp_microsleep_delay task env us s).actions) ∧
    (∀ t, t ≠ task →
      (esp_microsleep_delay task env us s).state.tls t = s.tls t) ∧
    (∀ tmr d, DelayAction.armTimer tmr d ∈ (esp_microsleep_delay task env us s).actions →
      (esp_microsleep_delay task env us s).state.tls task = some tmr) := by
  cases htls : s.tls task with
  | some tmr0 =>
    have hst := delay_cached_state task env us s tmr0 htls
    refine ⟨fun h => absurd h (by simp), ?_, ?_, ?_⟩
    · intro tmr h
      injection h with h2
      subst h2
      exact ⟨by rw [hst]; exact htls, delay_cached_no_create task env us s tmr0 htls⟩
    · intro t _
      rw [hst]
    · intro tmr d hmem
      rw [delay_cached task env us s tmr0 htls] at hmem
      rcases delay_rest_actions_mem env us s tmr0 [] _ hmem with h1 | h1 | h1 | h1
      · simp at h1
      · simp at h1
      · injection h1 with h2 h3
        subst h2
        rw [hst]; exact htls
      · simp at h1
  | none =>
    by_cases he : env.createErr = ESP_OK
    · rw [delay_fresh_ok task env us s htls he]
      refine ⟨fun _ _ => ⟨?_, ?_⟩, ?_, ?_, ?_⟩
      · rw [delay_rest_state]; exact tlsStore_self s task env.createHandle
      · exact delay_rest_acts_subset env us (tlsStore s task env.createHandle)
          env.createHandle _ _ (by simp)
      · intro tmr h; exact absurd h (by simp)
      · intro t ht; rw [delay_rest_state]
        exact tlsStore_other s task env.createHandle t ht
      · intro tmr d hmem
        rcases delay_rest_actions_mem _ _ _ _ _ _ hmem with h1 | h1 | h1 | h1
        · simp at h1
        · simp at h1
        · injection h1 with h2 h3
          subst h2
          rw [delay_rest_state]; exact tlsStore_self s task env.createHandle
        · simp at h1
    · rw [delay_fresh_err task env us s htls he]
      refine ⟨fun _ hok => absurd hok he, ?_, fun t _ => rfl, ?_⟩
      · intro tmr h; exact absurd h (by simp)
      · intro tmr d hmem; simp at hmem

/-- Witness for C8: a first call by task 0 (empty slot, creation gives
handle 7) caches handle 7 in task 0's slot, records the creation, and
leaves task 1's slot untouched. -/
theorem delay_timer_cache_invariant_witness :
    (esp_microsleep_delay 0 ⟨0, 7, 0⟩ 5 ⟨0, fun _ => none⟩).state.tls 0 = some 7 ∧
    DelayAction.createTimer 7 ∈
      (esp_microsleep_delay 0 ⟨0, 7, 0⟩ 5 ⟨0, fun _ => none⟩).actions ∧
    (esp_microsleep_delay 0 ⟨0, 7, 0⟩ 5 ⟨0, fun _ => none⟩).state.tls 1 = none :=
  ⟨((delay_timer_cache_invariant 0 ⟨0, 7, 0⟩ 5 ⟨0, fun _ => none⟩).1 rfl rfl).1,
   ((delay_timer_cache_invariant 0 ⟨0, 7, 0⟩ 5 ⟨0, fun _ => none⟩).1 rfl rfl).2,
   (delay_timer_cache_invariant 0 ⟨0, 7, 0⟩ 5 ⟨0, fun _ => none⟩).2.2.1 1 (by decide)⟩

/-- C9: `esp_microsleep_delay` never writes the process-wide
`esp_microsleep_compensation`: on every path (zero, busy-wait, scheduled,
creation failure and arm failure, i.e. for every `env` and every `us`) the
value after the call equals the value before it; and the value is
non-negative (it is a `uint64_t`, modelled by `Nat`). -/
theorem delay_preserves_compensation (task : Nat) (env : DelayEnv) (us : Nat)
    (s : MicrosleepState) :
    (esp_microsleep_delay task env us s).state.esp_microsleep_compensation
      = s.esp_microsleep_compensation ∧
    0 ≤ (esp_microsleep_delay task env us s).state.esp_microsleep_compensation :=
  ⟨delay_comp_eq task env us s, Nat.zero_le _⟩

/-- C10: on the scheduled path the guard `us > esp_microsleep_compensation`
makes the 64-bit subtraction `us - esp_microsleep_compensation` exact —
no wraparound, `u64_sub` agrees with the mathematical difference — and the
armed duration is at least 1 microsecond; this holds for every requested
value and every compensation value below `2 ^ 64` satisfying the guard. -/
theorem scheduled_subtraction_exact (task : Nat) (env : DelayEnv) (us : Nat)
    (s : MicrosleepState) (tmr : Nat) (htls : s.tls task = some tmr)
    (hc : s.esp_microsleep_compensation < us) (hu : us < UINT64_LIMIT) :
    DelayAction.armTimer tmr (us - s.esp_microsleep_compensation) ∈
      (esp_microsleep_delay task env us s).actions ∧
    u64_sub us s.esp_microsleep_compensation = us - s.esp_microsleep_compensation ∧
    1 ≤ us - s.esp_microsleep_compensation := by
  have hsub := u64_sub_eq us s.esp_microsleep_compensation (Nat.le_of_lt hc) hu
  rw [delay_cached task env us s tmr htls]
  refine ⟨?_, hsub, by omega⟩
  by_cases ha : env.armErr = ESP_OK
  · rw [delay_rest_arm_ok env us s tmr [] (by omega) (by omega) ha, hsub]
    simp
  · rw [delay_rest_arm_fail env us s tmr [] (by omega) (by omega) ha, hsub]
    simp

/-- Witness for C10: compensation 15, `delay(100)` arms the cached timer
(handle 3) for exactly 85 microseconds. -/
theorem scheduled_subtraction_exact_witness :
    DelayAction.armTimer 3 85 ∈
      (esp_microsleep_delay 0 ⟨0, 0, 0⟩ 100 ⟨15, fun _ => some 3⟩).actions ∧
    u64_sub 100 15 = 85 ∧ (1 : Nat) ≤ 85 :=
  scheduled_subtraction_exact 0 ⟨0, 0, 0⟩ 100 ⟨15, fun _ => some 3⟩ 3
    rfl (by decide) (by decide)

/-! ## Helper lemmas about the calibration loop -/

theorem calibLoop_state_zero (task : Nat) (envs : Nat → DelayEnv)
    (elapsed : Nat → Nat) (i : Nat) (s : MicrosleepState) (acc : Nat) :
    (calibLoop task envs elapsed 0 i s acc).1 = s := rfl

theorem calibLoop_acc_zero (task : Nat) (envs : Nat → DelayEnv)
    (elapsed : Nat → Nat) (i : Nat) (s : MicrosleepState) (acc : Nat) :
    (calibLoop task envs elapsed 0 i s acc).2.1 = acc := rfl

theorem calibLoop_calls_zero (task : Nat) (envs : Nat → DelayEnv)
    (elapsed : Nat → Nat) (i : Nat) (s : MicrosleepState) (acc : Nat) :
    (calibLoop task envs elapsed 0 i s acc).2.2 = [] := rfl

theorem calibLoop_succ (task : Nat) (envs : Nat → DelayEnv) (elapsed : Nat → Nat)
    (n i : Nat) (s : MicrosleepState) (acc : Nat) :
    calibLoop task envs elapsed (n + 1) i s acc =
      ((calibLoop task envs elapsed n (i + 1)
          (esp_microsleep_delay task (envs i) calibration_usec s).state
          (u64_add acc (u64_sub (elapsed i) calibration_usec))).1,
       (calibLoop task envs elapsed n (i + 1)
          (esp_microsleep_delay task (envs i) calibration_usec s).state
          (u64_add acc (u64_sub (elapsed i) calibration_usec))).2.1,
       (calibration_usec, (esp_microsleep_delay task (envs i) calibration_usec s).actions) ::
         (calibLoop task envs elapsed n (i + 1)
            (esp_microsleep_delay task (envs i) calibration_usec s).state
            (u64_add acc (u64_sub (elapsed i) calibration_usec))).2.2) := rfl

theorem calibLoop_acc_succ (task : Nat) (envs : Nat → DelayEnv)
    (elapsed : Nat → Nat) (n i : Nat) (s : MicrosleepState) (acc : Nat) :
    (calibLoop task envs elapsed (n + 1) i s acc).2.1 =
      (calibLoop task envs elapsed n (i + 1)
        (esp_microsleep_delay task (envs i) calibration_usec s).state
        (u64_add acc (u64_sub (elapsed i) calibration_usec))).2.1 := by
  rw [calibLoop_succ]

theorem calibLoop_calls_succ (task : Nat) (envs : Nat → DelayEnv)
    (elapsed : Nat → Nat) (n i : Nat) (s : MicrosleepState) (acc : Nat) :
    (calibLoop task envs elapsed (n + 1) i s acc).2.2 =
      (calibration_usec,
        (esp_microsleep_delay task (envs i) calibration_usec s).actions) ::
      (calibLoop task envs elapsed n (i + 1)
        (esp_microsleep_delay task (envs i) calibration_usec s).state
        (u64_add acc (u64_sub (elapsed i) calibration_usec))).2.2 := by
  rw [calibLoop_succ]

theorem calibrate_comp_def (task : Nat) (env0 : DelayEnv) (envs : Nat → DelayEnv)
    (elapsed : Nat → Nat) (s : MicrosleepState) :
    (esp_microsleep_calibrate task env0 envs elapsed s).state.esp_microsleep_compensation =
      (calibLoop task envs elapsed calibration_loops 0
        (esp_microsleep_delay task env0 0 s).state 0).2.1 / calibration_loops := rfl

theorem calibrate_ret_def (task : Nat) (env0 : DelayEnv) (envs : Nat → DelayEnv)
    (elapsed : Nat → Nat) (s : MicrosleepState) :
    (esp_microsleep_calibrate task env0 envs elapsed s).ret =
      (calibLoop task envs elapsed calibration_loops 0
        (esp_microsleep_delay task env0 0 s).state 0).2.1 / calibration_loops := rfl

theorem calibrate_calls_def (task : Nat) (env0 : DelayEnv) (envs : Nat → DelayEnv)
    (elapsed : Nat → Nat) (s : MicrosleepState) :
    (esp_microsleep_calibrate task env0 envs elapsed s).calls =
      (0, (esp_microsleep_delay task env0 0 s).actions) ::
        (calibLoop task envs elapsed calibration_loops 0
          (esp_microsleep_delay task env0 0 s).state 0).2.2 := rfl

theorem calibLoop_acc (task : Nat) (envs : Nat → DelayEnv) (elapsed : Nat → Nat) :
    ∀ (n i : Nat) (s : MicrosleepState) (acc : Nat),
      (∀ j, j ∈ Finset.Ico i (i + n) →
        calibration_usec ≤ elapsed j ∧ elapsed j < UINT64_LIMIT) →
      acc + (∑ j in Finset.Ico i (i + n), (elapsed j - calibration_usec)) < UINT64_LIMIT →
      (calibLoop task envs elapsed n i s acc).2.1 =
        acc + ∑ j in Finset.Ico i (i + n), (elapsed j - calibration_usec) := by
  intro n
  induction n with
  | zero => intro i s acc _ _; rw [calibLoop_acc_zero]; simp
  | succ n ih =>
    intro i s acc hb hsum
    have hbound : i + (n + 1) = i + 1 + n := by omega
    rw [hbound] at hb hsum
    rw [calibLoop_acc_succ, hbound]
    have h0 := hb i (Finset.mem_Ico.mpr (by omega))
    have hdiff : u64_sub (elapsed i) calibration_usec = elapsed i - calibration_usec :=
      u64_sub_eq _ _ h0.1 h0.2
    have hsplit : (∑ j in Finset.Ico i (i + 1 + n), (elapsed j - calibration_usec)) =
        (elapsed i - calibration_usec) +
          ∑ j in Finset.Ico (i + 1) (i + 1 + n), (elapsed j - calibration_usec) :=
      Finset.sum_eq_sum_Ico_succ_bot (by omega) _
    have hadd : u64_add acc (u64_sub (elapsed i) calibration_usec) =
        acc + (elapsed i - calibration_usec) := by
      rw [hdiff]
      exact u64_add_eq _ _ (by rw [hsplit] at hsum; omega)
    have hb' : ∀ j, j ∈ Finset.Ico (i + 1) (i + 1 + n) →
        calibration_usec ≤ elapsed j ∧ elapsed j < UINT64_LIMIT := by
      intro j hj
      have hj' := Finset.mem_Ico.mp hj
      exact hb j (Finset.mem_Ico.mpr ⟨by omega, hj'.2⟩)
    have hsum' : acc + (elapsed i - calibration_usec) +
        (∑ j in Finset.Ico (i + 1) (i + 1 + n), (elapsed j - calibration_usec)) <
          UINT64_LIMIT := by
      rw [hsplit] at hsum; omega
    rw [hadd, ih (i + 1) _ _ hb' hsum', hsplit]
    omega
theorem calibLoop_no_create (task : Nat) (envs : Nat → DelayEnv)
    (elapsed : Nat → Nat) :
    ∀ (n i : Nat) (s : MicrosleepState) (acc tmr : Nat), s.tls task = some tmr →
      ∀ p ∈ (calibLoop task envs elapsed n i s acc).2.2,
        p.1 = calibration_usec ∧ ∀ h, DelayAction.createTimer h ∉ p.2 := by
  intro n
  induction n with
  | zero => intro i s acc tmr _ p hp; rw [calibLoop_calls_zero] at hp; simp at hp
  | succ n ih =>
    intro i s acc tmr htls p hp
    rw [calibLoop_calls_succ] at hp
    have hst := delay_cached_state task (envs i) calibration_usec s tmr htls
    rcases List.mem_cons.mp hp with h | h
    · subst h
      exact ⟨rfl, delay_cached_no_create task (envs i) calibration_usec s tmr htls⟩
    · exact ih (i + 1) _ _ tmr (by rw [hst]; exact htls) p h

theorem calibLoop_calls_fst (task : Nat) (envs : Nat → DelayEnv)
    (elapsed : Nat → Nat) :
    ∀ (n i : Nat) (s : MicrosleepState) (acc : Nat),
      ((calibLoop task envs elapsed n i s acc).2.2).map Prod.fst =
        List.replicate n calibration_usec := by
  intro n
  induction n with
  | zero => intro i s acc; rw [calibLoop_calls_zero]; rfl
  | succ n ih =>
    intro i s acc
    rw [calibLoop_calls_succ, List.map_cons, ih, List.replicate_succ]

/-! ## Claim theorems: `esp_microsleep_calibrate` -/

/-- C4: `esp_microsleep_calibrate` runs exactly `calibration_loops = 10`
trial rounds, each an `esp_microsleep_delay (calibration_usec = 100)`
call, measures round `i`'s overhead as `elapsed i − 100`, overwrites the
process-wide `esp_microsleep_compensation` with the truncating (floor)
average of the 10 overheads, and returns that newly stored value.  The
hypotheses say each round's measured elapsed time is at least the
requested 100 microseconds and that the `uint64_t` accumulation does not
wrap. -/
theorem calibrate_overwrites_average (task : Nat) (env0 : DelayEnv)
    (envs : Nat → DelayEnv) (elapsed : Nat → Nat) (s : MicrosleepState)
    (hb : ∀ i, i < calibration_loops →
      calibration_usec ≤ elapsed i ∧ elapsed i < UINT64_LIMIT)
    (hsum : (∑ i in Finset.range calibration_loops,
      (elapsed i - calibration_usec)) < UINT64_LIMIT) :
    (esp_microsleep_calibrate task env0 envs elapsed s).state.esp_microsleep_compensation =
      (∑ i in Finset.range calibration_loops,
        (elapsed i - calibration_usec)) / calibration_loops ∧
    (esp_microsleep_calibrate task env0 envs elapsed s).ret =
      (esp_microsleep_calibrate task env0 envs elapsed s).state.esp_microsleep_compensation ∧
    ((esp_microsleep_calibrate task env0 envs elapsed s).calls).map Prod.fst =
      0 :: List.replicate calibration_loops calibration_usec := by
  have hrange : Finset.Ico 0 (0 + calibration_loops) = Finset.range calibration_loops := by
    rw [Nat.zero_add, Finset.range_eq_Ico]
  have hb0 : ∀ j, j ∈ Finset.Ico 0 (0 + calibration_loops) →
      calibration_usec ≤ elapsed j ∧ elapsed j < UINT64_LIMIT := by
    intro j hj
    have hj' := Finset.mem_Ico.mp hj
    exact hb j (by omega)
  have hsum0 : (0 : Nat) + (∑ j in Finset.Ico 0 (0 + calibration_loops),
      (elapsed j - calibration_usec)) < UINT64_LIMIT := by
    rw [hrange]
    omega
  have hacc := calibLoop_acc task envs elapsed calibration_loops 0
    (esp_microsleep_delay task env0 0 s).state 0 hb0 hsum0
  rw [hrange] at hacc
  refine ⟨?_, ?_, ?_⟩
  · rw [calibrate_comp_def, hacc, Nat.zero_add]
  · rw [calibrate_ret_def, calibrate_comp_def]
  · rw [calibrate_calls_def, List.map_cons, calibLoop_calls_fst]

/-- Witness for C4: every round measures 115 microseconds elapsed, so each
overhead is 15 and the stored and returned compensation value is 15. -/
theorem calibrate_overwrites_average_witness :
    (esp_microsleep_calibrate 0 ⟨0, 7, 0⟩ (fun _ => ⟨0, 7, 0⟩) (fun _ => 115)
      ⟨0, fun _ => none⟩).state.esp_microsleep_compensation =
      (∑ i in Finset.range calibration_loops,
        ((fun _ => 115 : Nat → Nat) i - calibration_usec)) / calibration_loops ∧
    (esp_microsleep_calibrate 0 ⟨0, 7, 0⟩ (fun _ => ⟨0, 7, 0⟩) (fun _ => 115)
      ⟨0, fun _ => none⟩).ret =
      (esp_microsleep_calibrate 0 ⟨0, 7, 0⟩ (fun _ => ⟨0, 7, 0⟩) (fun _ => 115)
        ⟨0, fun _ => none⟩).state.esp_microsleep_compensation ∧
    ((esp_microsleep_calibrate 0 ⟨0, 7, 0⟩ (fun _ => ⟨0, 7, 0⟩) (fun _ => 115)
      ⟨0, fun _ => none⟩).calls).map Prod.fst =
      0 :: List.replicate calibration_loops calibration_usec :=
  calibrate_overwrites_average 0 ⟨0, 7, 0⟩ (fun _ => ⟨0, 7, 0⟩) (fun _ => 115)
    ⟨0, fun _ => none⟩
    (fun i _ => ⟨by norm_num [calibration_usec], by norm_num [UINT64_LIMIT]⟩)
    (by norm_num [Finset.sum_range_succ, calibration_loops, calibration_usec,
      UINT64_LIMIT])

/-- C5: `esp_microsleep_calibrate` makes exactly one throwaway
`esp_microsleep_delay 0` call, before all 10 timed measurement rounds;
on a task with no cached timer (creation succeeding) that throwaway call
is what creates the task's timer — the timed rounds that follow create
none. -/
theorem calibrate_warmup_first (task : Nat) (env0 : DelayEnv)
    (envs : Nat → DelayEnv) (elapsed : Nat → Nat) (s : MicrosleepState)
    (htls : s.tls task = none) (he : env0.createErr = ESP_OK) :
    ((esp_microsleep_calibrate task env0 envs elapsed s).calls).map Prod.fst =
      0 :: List.replicate calibration_loops calibration_usec ∧
    ((esp_microsleep_calibrate task env0 envs elapsed s).calls).head? =
      some (0, [DelayAction.createTimer env0.createHandle]) ∧
    ∀ p ∈ ((esp_microsleep_calibrate task env0 envs elapsed s).calls).tail,
      p.1 = calibration_usec ∧ ∀ h, DelayAction.createTimer h ∉ p.2 := by
  have hwarm : esp_microsleep_delay task env0 0 s =
      { ret := ESP_OK, state := tlsStore s task env0.createHandle,
        actions := [DelayAction.createTimer env0.createHandle] } := by
    rw [delay_fresh_ok task env0 0 s htls he, delay_rest_zero]
  refine ⟨?_, ?_, ?_⟩
  · rw [calibrate_calls_def, List.map_cons, calibLoop_calls_fst]
  · rw [calibrate_calls_def, hwarm]
    rfl
  · rw [calibrate_calls_def]
    intro p hp
    refine calibLoop_no_create task envs elapsed calibration_loops 0
      (esp_microsleep_delay task env0 0 s).state 0 env0.createHandle ?_ p ?_
    · rw [hwarm]
      exact tlsStore_self s task env0.createHandle
    · exact hp

/-- Witness for C5: a fresh task (empty slot, creation gives handle 7)
running calibration; the first call is the zero-length warm-up creating
timer 7, and none of the 10 timed rounds creates a timer. -/
theorem calibrate_warmup_first_witness :
    ((esp_microsleep_calibrate 0 ⟨0, 7, 0⟩ (fun _ => ⟨0, 7, 0⟩) (fun _ => 115)
      ⟨0, fun _ => none⟩).calls).map Prod.fst =
      0 :: List.replicate calibration_loops calibration_usec ∧
    ((esp_microsleep_calibrate 0 ⟨0, 7, 0⟩ (fun _ => ⟨0, 7, 0⟩) (fun _ => 115)
      ⟨0, fun _ => none⟩).calls).head? =
      some (0, [DelayAction.createTimer 7]) ∧
    ∀ p ∈ ((esp_microsleep_calibrate 0 ⟨0, 7, 0⟩ (fun _ => ⟨0, 7, 0⟩) (fun _ => 115)
      ⟨0, fun _ => none⟩).calls).tail,
      p.1 = calibration_usec ∧ ∀ h, DelayAction.createTimer h ∉ p.2 :=
  calibrate_warmup_first 0 ⟨0, 7, 0⟩ (fun _ => ⟨0, 7, 0⟩) (fun _ => 115)
    ⟨0, fun _ => none⟩ rfl rfl
